import Mathlib

/-!
Shallow embedding of the system-monitor repository's core logic:

* `src/Server/src/services/AlterService.js` — the server-side alert engine
  (`AlertService`): per-category create/resolve rules, dedup on creation,
  risk scoring, retention sweep.  The backing store (a SQL `alerts` table /
  the `Database` class appended to `src/Server/src/models/Machine.js`) is
  modelled as a list of alert records; `SELECT`/`UPDATE`/`DELETE` become
  list lookup / map / filter.
* `src/client/src/monitor.js` — the client-side change gate (`runCheck`,
  `hasStateChanged`, `shouldSendHeartbeat`) and snapshot assembly
  (`getSystemState`).
* `src/unnamed/part_002` (`SystemChecks`) — the platform probes, modelled
  per platform with the bits parsed out of command output abstracted as
  parameters (the parse of a command's stdout is a boolean / integer; we
  quantify over it).
* `src/Server/src/routes/api.js` + `server.js` — the wiring of
  `AlertService` onto the mongoose models object, modelled by the sets of
  member names each side provides/requires.

JavaScript dynamic values are modelled with `Option`: a field an object
literal never sets is `none` (JS `undefined`); truthiness of such a field
is `Option.getD false`; JS `x > k` on a possibly-undefined `x` is `false`
when `x` is `undefined`.  Timestamps are milliseconds as `Int`
(`Date.now()`); SQL `CURRENT_TIMESTAMP` / ISO-string comparison is
order-isomorphic to integer comparison and is modelled as such.
-/

/-- Alert severities (the `severity` column; also the risk `level` values,
which use the same four strings). -/
inductive Severity where
  | low
  | medium
  | high
  | critical
deriving DecidableEq, Repr

/-- The six `alert_type` values produced by `AlertService`. -/
inductive AlertType where
  | disk_encryption
  | os_updates
  | antivirus_missing
  | antivirus_disabled
  | antivirus_outdated
  | sleep_timeout
deriving DecidableEq, Repr

/-- One row of the `alerts` table (the spec's `AlertRecord`). -/
structure AlertRecord where
  machineId : String
  alertType : AlertType
  severity : Severity
  title : String
  message : String
  isResolved : Bool
  createdAt : Int
  resolvedAt : Option Int
deriving DecidableEq, Repr

/-- The alert store: the rows of the `alerts` table, in insertion order. -/
abbrev DB := List AlertRecord

/-- JS truthiness of a possibly-undefined boolean field
(`undefined` is falsy). -/
def truthy (o : Option Bool) : Bool := o.getD false

/-- JS truthiness of a possibly-undefined number field
(`undefined` and `0` are falsy). -/
def truthyInt (o : Option Int) : Bool :=
  match o with
  | none => false
  | some v => v != 0

/-- JS `x > k` where `x` may be `undefined` (`undefined > k` is `false`). -/
def jsGtInt (o : Option Int) (k : Int) : Bool :=
  match o with
  | none => false
  | some v => k < v

/-- The `diskEncryption` category payload as a JS object.  The probe
(`SystemChecks`) writes `enabled`; the engine reads `encrypted`; `safeRun`
failures set `error`.  `info` stands for the remaining string-valued fields
(`status`, `method`, `details`, `message`). -/
structure DiskPayload where
  encrypted : Option Bool := none
  enabled : Option Bool := none
  error : Option Bool := none
  info : String := ""
deriving DecidableEq, Repr

/-- The `osUpdates` category payload.  Probe writes `updatesAvailable`;
engine reads `upToDate` and `daysBehind`. -/
structure OsPayload where
  upToDate : Option Bool := none
  updatesAvailable : Option Bool := none
  daysBehind : Option Int := none
  error : Option Bool := none
  info : String := ""
deriving DecidableEq, Repr

/-- The `antivirus` category payload.  Probe writes `installed` and
`running`; engine reads `installed`, `enabled`, `definitionsOutdated`. -/
structure AvPayload where
  installed : Option Bool := none
  enabled : Option Bool := none
  running : Option Bool := none
  definitionsOutdated : Option Bool := none
  error : Option Bool := none
  info : String := ""
deriving DecidableEq, Repr

/-- The `sleepSettings` category payload.  Probe writes `sleepTime` and
`compliant`; engine reads `sleepTimeout`. -/
structure SleepPayload where
  sleepTimeout : Option Int := none
  sleepTime : Option Int := none
  compliant : Option Bool := none
  error : Option Bool := none
  info : String := ""
deriving DecidableEq, Repr

/-- The fields of the submitted system data that `analyzeSystemData`
destructures.  Each category payload is `Option` because the engine guards
each one with a JS truthiness test (`!diskEncryption` etc.). -/
structure SystemData where
  machineId : String
  diskEncryption : Option DiskPayload
  osUpdates : Option OsPayload
  antivirus : Option AvPayload
  sleepSettings : Option SleepPayload
deriving DecidableEq, Repr

/-- `r` is an unresolved row for `(m, t)` — the WHERE clause
`machine_id = ? AND alert_type = ? AND is_resolved = 0`. -/
def openMatch (m : String) (t : AlertType) (r : AlertRecord) : Bool :=
  r.machineId == m && decide (r.alertType = t) && !r.isResolved

/-- Number of unresolved rows for `(m, t)` in the store. -/
def countOpen (db : DB) (m : String) (t : AlertType) : Nat :=
  db.countP (openMatch m t)

/-- `AlertService.createAlertIfNotExists`: SELECT an unresolved row of this
`(machineId, alertType)`; insert a fresh unresolved row only when none
exists. -/
def createAlertIfNotExists (db : DB) (m : String) (t : AlertType)
    (sev : Severity) (title msg : String) (now : Int) : DB :=
  if db.any (openMatch m t) then db
  else db ++ [{ machineId := m, alertType := t, severity := sev,
                title := title, message := msg, isResolved := false,
                createdAt := now, resolvedAt := none }]

/-- `AlertService.resolveAlertByType`: UPDATE every unresolved row of this
`(machineId, alertType)` to resolved with `resolved_at = CURRENT_TIMESTAMP`. -/
def resolveAlertByType (db : DB) (m : String) (t : AlertType) (now : Int) : DB :=
  db.map (fun r =>
    if openMatch m t r then { r with isResolved := true, resolvedAt := some now }
    else r)

def diskTitle : String := "Disk Encryption Disabled"

def diskMsg (m : String) : String :=
  "Machine " ++ m ++ " does not have disk encryption enabled. This poses a significant security risk."

/-- The condition of `checkDiskEncryptionAlert`:
`!diskEncryption || !diskEncryption.encrypted`. -/
def diskNonCompliant (d : Option DiskPayload) : Bool :=
  match d with
  | none => true
  | some p => !(truthy p.encrypted)

/-- `AlertService.checkDiskEncryptionAlert`. -/
def checkDiskEncryptionAlert (m : String) (d : Option DiskPayload)
    (now : Int) (db : DB) : DB :=
  if diskNonCompliant d then
    createAlertIfNotExists db m AlertType.disk_encryption Severity.high
      diskTitle (diskMsg m) now
  else
    resolveAlertByType db m AlertType.disk_encryption now

def osTitle : String := "OS Updates Required"

def osMsgBehind (m : String) (days : Int) : String :=
  "Machine " ++ m ++ " is " ++ toString days ++ " days behind on OS updates."

def osMsgPending (m : String) : String :=
  "Machine " ++ m ++ " has pending OS updates."

/-- The condition of `checkOSUpdatesAlert`: `!osUpdates || !osUpdates.upToDate`. -/
def osNonCompliant (o : Option OsPayload) : Bool :=
  match o with
  | none => true
  | some p => !(truthy p.upToDate)

/-- `AlertService.checkOSUpdatesAlert`.  Severity is
`osUpdates?.daysBehind > 30 ? high : medium`; the message depends on the JS
truthiness of `osUpdates?.daysBehind`. -/
def checkOSUpdatesAlert (m : String) (o : Option OsPayload)
    (now : Int) (db : DB) : DB :=
  if osNonCompliant o then
    let days := (o.map (fun p => p.daysBehind)).getD none
    let sev := if jsGtInt days 30 then Severity.high else Severity.medium
    let msg := match days with
      | some d => if d != 0 then osMsgBehind m d else osMsgPending m
      | none => osMsgPending m
    createAlertIfNotExists db m AlertType.os_updates sev osTitle msg now
  else
    resolveAlertByType db m AlertType.os_updates now

def avMissingTitle : String := "Antivirus Not Installed"

def avMissingMsg (m : String) : String :=
  "Machine " ++ m ++ " does not have antivirus software installed."

def avDisabledTitle : String := "Antivirus Disabled"

def avDisabledMsg (m : String) : String :=
  "Machine " ++ m ++ " has antivirus software installed but it is not enabled."

def avOutdatedTitle : String := "Antivirus Definitions Outdated"

def avOutdatedMsg (m : String) : String :=
  "Machine " ++ m ++ " has outdated antivirus definitions."

/-- JS truthiness of `antivirus && antivirus.installed`. -/
def avInstalled (a : Option AvPayload) : Bool :=
  match a with
  | none => false
  | some p => truthy p.installed

/-- JS truthiness of `antivirus.enabled` (with the object present). -/
def avEnabled (a : Option AvPayload) : Bool :=
  match a with
  | none => false
  | some p => truthy p.enabled

/-- JS truthiness of `antivirus.definitionsOutdated`. -/
def avDefsOutdated (a : Option AvPayload) : Bool :=
  match a with
  | none => false
  | some p => truthy p.definitionsOutdated

/-- `AlertService.checkAntivirusAlert`: ordered three-state evaluation. -/
def checkAntivirusAlert (m : String) (a : Option AvPayload)
    (now : Int) (db : DB) : DB :=
  if !(avInstalled a) then
    createAlertIfNotExists db m AlertType.antivirus_missing Severity.high
      avMissingTitle (avMissingMsg m) now
  else if !(avEnabled a) then
    let db1 := createAlertIfNotExists db m AlertType.antivirus_disabled
      Severity.medium avDisabledTitle (avDisabledMsg m) now
    resolveAlertByType db1 m AlertType.antivirus_missing now
  else
    let db1 := resolveAlertByType db m AlertType.antivirus_missing now
    let db2 := resolveAlertByType db1 m AlertType.antivirus_disabled now
    if avDefsOutdated a then
      createAlertIfNotExists db2 m AlertType.antivirus_outdated Severity.medium
        avOutdatedTitle (avOutdatedMsg m) now
    else
      resolveAlertByType db2 m AlertType.antivirus_outdated now

def sleepTitle : String := "Sleep Timeout Too Long"

def sleepMsg (m : String) (timeoutStr : String) : String :=
  "Machine " ++ m ++ " has sleep timeout set to " ++ timeoutStr ++
  " minutes. Recommended: <=10 minutes."

/-- The condition of `checkSleepSettingsAlert`:
`!sleepSettings || sleepSettings.sleepTimeout > 10`.  Note that a present
payload whose `sleepTimeout` is `undefined` makes the condition `false`
(JS `undefined > 10` is `false`). -/
def sleepNonCompliant (s : Option SleepPayload) : Bool :=
  match s with
  | none => true
  | some p => jsGtInt p.sleepTimeout 10

/-- `sleepSettings?.sleepTimeout || 'unknown'` as the message fragment. -/
def sleepTimeoutStr (s : Option SleepPayload) : String :=
  match (s.map (fun p => p.sleepTimeout)).getD none with
  | some t => if t != 0 then toString t else "unknown"
  | none => "unknown"

/-- `AlertService.checkSleepSettingsAlert`. -/
def checkSleepSettingsAlert (m : String) (s : Option SleepPayload)
    (now : Int) (db : DB) : DB :=
  if sleepNonCompliant s then
    createAlertIfNotExists db m AlertType.sleep_timeout Severity.low
      sleepTitle (sleepMsg m (sleepTimeoutStr s)) now
  else
    resolveAlertByType db m AlertType.sleep_timeout now

/-- `AlertService.analyzeSystemData` when no data-access operation fails:
the four category checks run in order on the shared store. -/
def analyzeSystemData (s : SystemData) (now : Int) (db : DB) : DB :=
  checkSleepSettingsAlert s.machineId s.sleepSettings now
    (checkAntivirusAlert s.machineId s.antivirus now
      (checkOSUpdatesAlert s.machineId s.osUpdates now
        (checkDiskEncryptionAlert s.machineId s.diskEncryption now db)))

/-- `AlertService.analyzeSystemData` with possible data-access failures.
All four checks sit inside one `try { ... } catch`: a flag `failX = true`
means the first data access of that category's check throws, so that
category mutates nothing and — crucially — control jumps to the single
`catch`, skipping every later category. -/
def analyzeSystemDataF (failDisk failOS failAV failSleep : Bool)
    (s : SystemData) (now : Int) (db : DB) : DB :=
  if failDisk then db else
  let db1 := checkDiskEncryptionAlert s.machineId s.diskEncryption now db
  if failOS then db1 else
  let db2 := checkOSUpdatesAlert s.machineId s.osUpdates now db1
  if failAV then db2 else
  let db3 := checkAntivirusAlert s.machineId s.antivirus now db2
  if failSleep then db3 else
  checkSleepSettingsAlert s.machineId s.sleepSettings now db3

/-- The severity weight table of `getMachineRiskScore`
(`severityWeights[alert.severity] || 0`; every enum value is in the table,
so the `|| 0` fallback is unreachable). -/
def severityWeight (s : Severity) : Nat :=
  match s with
  | Severity.critical => 10
  | Severity.high => 7
  | Severity.medium => 4
  | Severity.low => 1

/-- `Database.getAlerts(machineId, resolved, limit = 100)` (the store class
appended to `src/Server/src/models/Machine.js`): filter on
`is_resolved = resolved` and, when given, `machine_id = machineId`; sort by
`created_at` descending; truncate to `limit` rows. -/
def getAlerts (db : DB) (machineId : Option String) (resolved : Bool)
    (limit : Nat := 100) : List AlertRecord :=
  let rows := db.filter (fun r =>
    r.isResolved == resolved &&
    (match machineId with
     | some m => r.machineId == m
     | none => true))
  (rows.mergeSort (fun a b => decide (b.createdAt ≤ a.createdAt))).take limit

/-- The spec's `RiskScore` value:
`{score, level, alertCount, rawScore}`. -/
structure RiskScore where
  score : Nat
  level : Severity
  alertCount : Nat
  rawScore : Nat
deriving DecidableEq, Repr

/-- `AlertService.getMachineRiskScore`.  The source computes
`Math.min(100, riskScore / 50 * 100)` in floats and then
`Math.round`; for an integer `riskScore` the float expression is within
`2^-40` of the integer `2 * riskScore`, so the rounded score is exactly
`min 100 (riskScore * 100 / 50)` (exact division here since `50 ∣ 100`),
and `level` is read off the same value. -/
def getMachineRiskScore (db : DB) (machineId : String) : RiskScore :=
  let alerts := getAlerts db (some machineId) false
  let riskScore := alerts.foldl (fun acc a => acc + severityWeight a.severity) 0
  let normalizedScore := min 100 (riskScore * 100 / 50)
  { score := normalizedScore,
    level :=
      if 80 ≤ normalizedScore then Severity.critical
      else if 60 ≤ normalizedScore then Severity.high
      else if 30 ≤ normalizedScore then Severity.medium
      else Severity.low,
    alertCount := alerts.length,
    rawScore := riskScore }

/-- The DELETE condition of `cleanupOldResolvedAlerts`:
`is_resolved = 1 AND resolved_at < cutoff` where
`cutoff = now - daysToKeep * 24 * 60 * 60 * 1000` (milliseconds).  A SQL
`NULL` `resolved_at` never satisfies `resolved_at < ?`. -/
def sweepTarget (now : Int) (daysToKeep : Nat) (r : AlertRecord) : Bool :=
  r.isResolved &&
    (match r.resolvedAt with
     | some ts => decide (ts < now - (daysToKeep : Int) * 24 * 60 * 60 * 1000)
     | none => false)

/-- `AlertService.cleanupOldResolvedAlerts(daysToKeep = 30)`: DELETE the
resolved-and-expired rows, keep everything else. -/
def cleanupOldResolvedAlerts (db : DB) (now : Int) (daysToKeep : Nat := 30) : DB :=
  db.filter (fun r => !(sweepTarget now daysToKeep r))

/-- A full client snapshot as assembled by `SystemMonitor.getSystemState`.
The four category payloads are always present (the probe always returns an
object); `timestamp` is the snapshot creation time in milliseconds
(`new Date().toISOString()` in the source, order-isomorphic to the
integer clock).  `osInfoRepr` / `systemInfoRepr` stand for the serialized
`osInfo` / `systemInfo` sub-objects, which no compared key reads. -/
structure Snapshot where
  machineId : String
  platform : String
  hostname : String
  timestamp : Int
  osInfoRepr : String
  diskEncryption : DiskPayload
  osUpdates : OsPayload
  antivirus : AvPayload
  sleepSettings : SleepPayload
  systemInfoRepr : String
deriving DecidableEq, Repr

/-- The server receives the transmitted snapshot as the request body;
`analyzeSystemData` destructures exactly these fields, all present. -/
def snapshotToSystemData (s : Snapshot) : SystemData :=
  { machineId := s.machineId,
    diskEncryption := some s.diskEncryption,
    osUpdates := some s.osUpdates,
    antivirus := some s.antivirus,
    sleepSettings := some s.sleepSettings }

/-- `SystemMonitor.hasStateChanged`: `JSON.stringify` inequality over the
four category keys only.  For the fixed-shape payload structures here,
`JSON.stringify` equality coincides with structural equality. -/
def hasStateChanged (lastState : Option Snapshot) (newState : Snapshot) : Bool :=
  match lastState with
  | none => true
  | some l =>
    !(l.diskEncryption == newState.diskEncryption) ||
    !(l.osUpdates == newState.osUpdates) ||
    !(l.antivirus == newState.antivirus) ||
    !(l.sleepSettings == newState.sleepSettings)

/-- `SystemMonitor.shouldSendHeartbeat`:
`(Date.now() - lastState.timestamp) / 3600000 >= 24`, which over the reals
is `now - lastState.timestamp ≥ 24 * 3600000`. -/
def shouldSendHeartbeat (lastState : Option Snapshot) (nowMs : Int) : Bool :=
  match lastState with
  | none => true
  | some l => decide (24 * 3600000 ≤ nowMs - l.timestamp)

/-- The transmit decision of `SystemMonitor.runCheck`:
`!this.lastState || this.hasStateChanged(currentState) || this.shouldSendHeartbeat()`.
The snapshot is transmitted exactly when this is `true`. -/
def shouldSendSnapshot (lastState : Option Snapshot) (currentState : Snapshot)
    (nowMs : Int) : Bool :=
  lastState.isNone || hasStateChanged lastState currentState ||
    shouldSendHeartbeat lastState nowMs

/-- The platform identifiers `os.platform()` is dispatched on. -/
inductive Platform where
  | darwin
  | win32
  | linux
  | other
deriving DecidableEq, Repr

/-- `SystemChecks.checkMacOSEncryption`; `fileVaultOn` stands for
`stdout.includes('FileVault is On')`. -/
def checkMacOSEncryption (fileVaultOn : Bool) (out : String) : DiskPayload :=
  { enabled := some fileVaultOn, info := out }

/-- `SystemChecks.checkWindowsEncryption`; `protectionOn` stands for
`stdout.includes('Protection On') || stdout.includes('Fully Encrypted')`. -/
def checkWindowsEncryption (protectionOn : Bool) (out : String) : DiskPayload :=
  { enabled := some protectionOn, info := out }

/-- `SystemChecks.checkLinuxEncryption`; `luksFound` stands for
`stdout.includes('crypto_LUKS')`. -/
def checkLinuxEncryption (luksFound : Bool) (out : String) : DiskPayload :=
  { enabled := some luksFound, info := out }

/-- `SystemChecks.checkDiskEncryption` under `safeRun`: platform dispatch;
`cmdOk = false` means the underlying command threw, so `safeRun` returns
the `{error: true, message}` marker. -/
def checkDiskEncryption (platform : Platform) (cmdOk : Bool) (flag : Bool)
    (out msg : String) : DiskPayload :=
  if cmdOk then
    match platform with
    | Platform.darwin => checkMacOSEncryption flag out
    | Platform.win32 => checkWindowsEncryption flag out
    | Platform.linux => checkLinuxEncryption flag out
    | Platform.other => { enabled := some false, info := "Platform not supported" }
  else { error := some true, info := msg }

/-- `SystemChecks.checkOSUpdates` under `safeRun`; `avail` stands for the
per-platform `updatesAvailable` computation (macOS:
`!stdout.includes('No new software available')`; Windows:
`stdout.trim().length > 0`; Linux: `updateCount > threshold`). -/
def checkOSUpdates (platform : Platform) (cmdOk : Bool) (avail : Bool)
    (out msg : String) : OsPayload :=
  if cmdOk then
    match platform with
    | Platform.darwin => { updatesAvailable := some avail, info := out }
    | Platform.win32 => { updatesAvailable := some avail, info := out }
    | Platform.linux => { updatesAvailable := some avail, info := out }
    | Platform.other => { updatesAvailable := some false, info := "Platform not supported" }
  else { error := some true, info := msg }

/-- `SystemChecks.checkAntivirus` under `safeRun`; `detected` stands for the
per-platform product-detection result (macOS: constant `true`; Windows:
`lines.length > 1`; Linux: some known scanner responded), `runningFlag` for
the per-platform `running` computation. -/
def checkAntivirus (platform : Platform) (cmdOk : Bool)
    (detected runningFlag : Bool) (out msg : String) : AvPayload :=
  if cmdOk then
    match platform with
    | Platform.darwin => { installed := some true, running := some true, info := out }
    | Platform.win32 =>
      if detected then { installed := some true, running := some runningFlag, info := out }
      else { installed := some false, running := some false, info := out }
    | Platform.linux =>
      if detected then { installed := some true, running := some true, info := out }
      else { installed := some false, running := some false, info := out }
    | Platform.other =>
      { installed := some false, running := some false, info := "Platform not supported" }
  else { error := some true, info := msg }

/-- `SystemChecks.checkSleepSettings` under `safeRun`; `sleepTime?` stands
for the per-platform parsed sleep minutes (macOS `effectiveSleep`, Linux
`delay / 60`, Windows always `null`), `compliantFlag` for the per-platform
`compliant` computation.  No branch ever sets `sleepTimeout`. -/
def checkSleepSettings (platform : Platform) (cmdOk : Bool)
    (sleepTimeVal : Option Int) (compliantFlag : Bool) (out msg : String) :
    SleepPayload :=
  if cmdOk then
    match platform with
    | Platform.darwin =>
      { sleepTime := sleepTimeVal, compliant := some compliantFlag, info := out }
    | Platform.win32 =>
      { sleepTime := none, compliant := some false, info := out }
    | Platform.linux =>
      { sleepTime := sleepTimeVal, compliant := some compliantFlag, info := out }
    | Platform.other =>
      { sleepTime := none, compliant := some false, info := "Platform not supported" }
  else { error := some true, info := msg }

/-- The probe-parse parameters a call to `SystemMonitor.getSystemState` can
observe: one `cmdOk`/parse-result bundle per category. -/
structure ProbeRun where
  diskOk : Bool
  diskFlag : Bool
  diskOut : String
  diskErr : String
  osOk : Bool
  osAvail : Bool
  osOut : String
  osErr : String
  avOk : Bool
  avDetected : Bool
  avRunning : Bool
  avOut : String
  avErr : String
  sleepOk : Bool
  sleepTimeVal : Option Int
  sleepCompliant : Bool
  sleepOut : String
  sleepErr : String

/-- `SystemMonitor.getSystemState`: assemble the snapshot from the four
probe results plus host metadata. -/
def getSystemState (machineId : String) (platform : Platform)
    (platformStr hostname osInfoRepr systemInfoRepr : String)
    (timestamp : Int) (pr : ProbeRun) : Snapshot :=
  { machineId := machineId,
    platform := platformStr,
    hostname := hostname,
    timestamp := timestamp,
    osInfoRepr := osInfoRepr,
    diskEncryption := checkDiskEncryption platform pr.diskOk pr.diskFlag pr.diskOut pr.diskErr,
    osUpdates := checkOSUpdates platform pr.osOk pr.osAvail pr.osOut pr.osErr,
    antivirus := checkAntivirus platform pr.avOk pr.avDetected pr.avRunning pr.avOut pr.avErr,
    sleepSettings := checkSleepSettings platform pr.sleepOk pr.sleepTimeVal pr.sleepCompliant pr.sleepOut pr.sleepErr,
    systemInfoRepr := systemInfoRepr }

/-- The member names of the `db` object built in `server.js` and passed to
the api router as `models` — the object `new AlertService(models)` receives. -/
def modelsMembers : List String :=
  ["User", "ApiKey", "Machine", "SystemReport", "Alert"]

/-- The member names `AlertService` dereferences on `this.db`:
`this.db.db.get` / `this.db.db.run` (the raw sqlite handle),
`this.db.createAlert`, `this.db.getAlerts`. -/
def alertServiceRequiredMembers : List String :=
  ["db", "createAlert", "getAlerts"]

/-- Whether every member `AlertService` needs resolves on the store object
it was constructed with. -/
def storeOkFor (required provided : List String) : Bool :=
  required.all (fun x => provided.contains x)

/-- The store compatibility of the wiring in `src/Server/src/routes/api.js`. -/
def wiredStoreOk : Bool := storeOkFor alertServiceRequiredMembers modelsMembers

/-- `createAlertIfNotExists` as called through the wiring: dereferencing a
missing member makes the promise reject with a `TypeError`. -/
def createAlertIfNotExistsW (storeOk : Bool) (db : DB) (m : String)
    (t : AlertType) (sev : Severity) (title msg : String) (now : Int) :
    Except String DB :=
  if storeOk then Except.ok (createAlertIfNotExists db m t sev title msg now)
  else Except.error "TypeError: cannot read properties of undefined"

/-- `resolveAlertByType` as called through the wiring. -/
def resolveAlertByTypeW (storeOk : Bool) (db : DB) (m : String)
    (t : AlertType) (now : Int) : Except String DB :=
  if storeOk then Except.ok (resolveAlertByType db m t now)
  else Except.error "TypeError: cannot read properties of undefined"

/-- `analyzeSystemData` as called through the wiring: the single
`try`/`catch` swallows a rejection.  With a store flag that fails every
access, the very first data access of the first category rejects, so no
mutation has happened when the `catch` runs and the store is returned
unchanged. -/
def analyzeSystemDataW (storeOk : Bool) (s : SystemData) (now : Int)
    (db : DB) : DB :=
  if storeOk then analyzeSystemData s now db else db

/-- `getMachineRiskScore` as called through the wiring: it has no
`try`/`catch`, so a missing `this.db.getAlerts` makes the call reject. -/
def getMachineRiskScoreW (storeOk : Bool) (db : DB) (machineId : String) :
    Except String RiskScore :=
  if storeOk then Except.ok (getMachineRiskScore db machineId)
  else Except.error "TypeError: this.db.getAlerts is not a function"

/-- Whether the engine's rule for alert type `t` takes the create branch on
snapshot data `s` (read off the branch structure of the four checks). -/
def createsType (s : SystemData) : AlertType → Bool
  | AlertType.disk_encryption => diskNonCompliant s.diskEncryption
  | AlertType.os_updates => osNonCompliant s.osUpdates
  | AlertType.antivirus_missing => !(avInstalled s.antivirus)
  | AlertType.antivirus_disabled => avInstalled s.antivirus && !(avEnabled s.antivirus)
  | AlertType.antivirus_outdated =>
      avInstalled s.antivirus && avEnabled s.antivirus && avDefsOutdated s.antivirus
  | AlertType.sleep_timeout => sleepNonCompliant s.sleepSettings

/-- Whether the engine's rule for alert type `t` takes the resolve branch on
snapshot data `s`. -/
def resolvesType (s : SystemData) : AlertType → Bool
  | AlertType.disk_encryption => !(diskNonCompliant s.diskEncryption)
  | AlertType.os_updates => !(osNonCompliant s.osUpdates)
  | AlertType.antivirus_missing => avInstalled s.antivirus
  | AlertType.antivirus_disabled => avInstalled s.antivirus && avEnabled s.antivirus
  | AlertType.antivirus_outdated =>
      avInstalled s.antivirus && avEnabled s.antivirus && !(avDefsOutdated s.antivirus)
  | AlertType.sleep_timeout => !(sleepNonCompliant s.sleepSettings)

/-- The at-most-one-open-alert invariant of the spec's data model. -/
def AtMostOneOpen (db : DB) : Prop :=
  ∀ m t, countOpen db m t ≤ 1

theorem countP_ext {α : Type} (l : List α) (p q : α → Bool)
    (h : ∀ r ∈ l, p r = q r) : l.countP p = l.countP q := by
  induction l with
  | nil => rfl
  | cons a l ih =>
    have ha := h a (List.mem_cons_self a l)
    have ih' := ih (fun r hr => h r (List.mem_cons_of_mem a hr))
    simp [List.countP_cons, ha, ih']

theorem countOpen_create_self (db : DB) (m : String) (t : AlertType)
    (sev : Severity) (ti ms : String) (now : Int) :
    countOpen (createAlertIfNotExists db m t sev ti ms now) m t =
      max (countOpen db m t) 1 := by
  unfold createAlertIfNotExists countOpen
  by_cases h : db.any (openMatch m t) = true
  · rw [if_pos h]
    have h1 : 0 < db.countP (openMatch m t) := by
      rw [List.countP_pos_iff]
      simpa [List.any_eq_true] using h
    omega
  · rw [if_neg h]
    have h0 : db.countP (openMatch m t) = 0 := by
      rw [List.countP_eq_zero]
      intro a ha hpa
      exact h (List.any_eq_true.mpr ⟨a, ha, hpa⟩)
    rw [List.countP_append, h0]
    simp [openMatch]

theorem countOpen_create_ne_type (db : DB) (m : String) (t : AlertType)
    (sev : Severity) (ti ms : String) (now : Int) (m' : String)
    (t' : AlertType) (h : t' ≠ t) :
    countOpen (createAlertIfNotExists db m t sev ti ms now) m' t' =
      countOpen db m' t' := by
  unfold createAlertIfNotExists countOpen
  split
  · rfl
  · rw [List.countP_append]
    have : t ≠ t' := fun hh => h hh.symm
    simp [openMatch, this]

theorem countOpen_create_ne_machine (db : DB) (m : String) (t : AlertType)
    (sev : Severity) (ti ms : String) (now : Int) (m' : String)
    (t' : AlertType) (h : m' ≠ m) :
    countOpen (createAlertIfNotExists db m t sev ti ms now) m' t' =
      countOpen db m' t' := by
  unfold createAlertIfNotExists countOpen
  split
  · rfl
  · rw [List.countP_append]
    have : m ≠ m' := fun hh => h hh.symm
    simp [openMatch, this]

theorem countOpen_resolve_self (db : DB) (m : String) (t : AlertType)
    (now : Int) :
    countOpen (resolveAlertByType db m t now) m t = 0 := by
  unfold resolveAlertByType countOpen
  rw [List.countP_map, List.countP_eq_zero]
  intro r _ hr
  rw [Function.comp_apply] at hr
  by_cases h : openMatch m t r = true
  · rw [if_pos h] at hr
    simp [openMatch] at hr
  · rw [if_neg h] at hr
    exact h hr

theorem countOpen_resolve_ne_type (db : DB) (m : String) (t : AlertType)
    (now : Int) (m' : String) (t' : AlertType) (h : t' ≠ t) :
    countOpen (resolveAlertByType db m t now) m' t' = countOpen db m' t' := by
  unfold resolveAlertByType countOpen
  rw [List.countP_map]
  apply countP_ext
  intro r _
  rw [Function.comp_apply]
  by_cases hr : openMatch m t r = true
  · have h1 : r.alertType = t := by
      have := hr
      simp [openMatch] at this
      exact this.1.2
    rw [if_pos hr]
    simp [openMatch, h1]
    intro _ htt
    exact (h htt.symm).elim
  · rw [if_neg hr]

theorem countOpen_resolve_ne_machine (db : DB) (m : String) (t : AlertType)
    (now : Int) (m' : String) (t' : AlertType) (h : m' ≠ m) :
    countOpen (resolveAlertByType db m t now) m' t' = countOpen db m' t' := by
  unfold resolveAlertByType countOpen
  rw [List.countP_map]
  apply countP_ext
  intro r _
  rw [Function.comp_apply]
  by_cases hr : openMatch m t r = true
  · have h1 : r.machineId = m := by
      have := hr
      simp [openMatch] at this
      exact this.1.1
    rw [if_pos hr]
    simp [openMatch, h1]
    intro hmm
    exact (h hmm.symm).elim
  · rw [if_neg hr]

theorem countOpen_checkDisk_self (m : String) (d : Option DiskPayload)
    (now : Int) (db : DB) :
    countOpen (checkDiskEncryptionAlert m d now db) m AlertType.disk_encryption =
      if diskNonCompliant d then
        max (countOpen db m AlertType.disk_encryption) 1
      else 0 := by
  unfold checkDiskEncryptionAlert
  by_cases h : diskNonCompliant d = true
  · rw [if_pos h, if_pos h, countOpen_create_self]
  · rw [if_neg h, if_neg h, countOpen_resolve_self]

theorem countOpen_checkDisk_other (m : String) (d : Option DiskPayload)
    (now : Int) (db : DB) (m' : String) (t' : AlertType)
    (h : t' ≠ AlertType.disk_encryption ∨ m' ≠ m) :
    countOpen (checkDiskEncryptionAlert m d now db) m' t' =
      countOpen db m' t' := by
  unfold checkDiskEncryptionAlert
  rcases h with h | h <;> split
  · exact countOpen_create_ne_type _ _ _ _ _ _ _ _ _ h
  · exact countOpen_resolve_ne_type _ _ _ _ _ _ h
  · exact countOpen_create_ne_machine _ _ _ _ _ _ _ _ _ h
  · exact countOpen_resolve_ne_machine _ _ _ _ _ _ h

theorem countOpen_checkOS_self (m : String) (o : Option OsPayload)
    (now : Int) (db : DB) :
    countOpen (checkOSUpdatesAlert m o now db) m AlertType.os_updates =
      if osNonCompliant o then
        max (countOpen db m AlertType.os_updates) 1
      else 0 := by
  unfold checkOSUpdatesAlert
  by_cases h : osNonCompliant o = true
  · rw [if_pos h, if_pos h]
    exact countOpen_create_self _ _ _ _ _ _ _
  · rw [if_neg h, if_neg h, countOpen_resolve_self]

theorem countOpen_checkOS_other (m : String) (o : Option OsPayload)
    (now : Int) (db : DB) (m' : String) (t' : AlertType)
    (h : t' ≠ AlertType.os_updates ∨ m' ≠ m) :
    countOpen (checkOSUpdatesAlert m o now db) m' t' = countOpen db m' t' := by
  unfold checkOSUpdatesAlert
  rcases h with h | h <;> split
  · exact countOpen_create_ne_type _ _ _ _ _ _ _ _ _ h
  · exact countOpen_resolve_ne_type _ _ _ _ _ _ h
  · exact countOpen_create_ne_machine _ _ _ _ _ _ _ _ _ h
  · exact countOpen_resolve_ne_machine _ _ _ _ _ _ h

theorem countOpen_checkSleep_self (m : String) (s : Option SleepPayload)
    (now : Int) (db : DB) :
    countOpen (checkSleepSettingsAlert m s now db) m AlertType.sleep_timeout =
      if sleepNonCompliant s then
        max (countOpen db m AlertType.sleep_timeout) 1
      else 0 := by
  unfold checkSleepSettingsAlert
  by_cases h : sleepNonCompliant s = true
  · rw [if_pos h, if_pos h]
    exact countOpen_create_self _ _ _ _ _ _ _
  · rw [if_neg h, if_neg h, countOpen_resolve_self]

theorem countOpen_checkSleep_other (m : String) (s : Option SleepPayload)
    (now : Int) (db : DB) (m' : String) (t' : AlertType)
    (h : t' ≠ AlertType.sleep_timeout ∨ m' ≠ m) :
    countOpen (checkSleepSettingsAlert m s now db) m' t' =
      countOpen db m' t' := by
  unfold checkSleepSettingsAlert
  rcases h with h | h <;> split
  · exact countOpen_create_ne_type _ _ _ _ _ _ _ _ _ h
  · exact countOpen_resolve_ne_type _ _ _ _ _ _ h
  · exact countOpen_create_ne_machine _ _ _ _ _ _ _ _ _ h
  · exact countOpen_resolve_ne_machine _ _ _ _ _ _ h

theorem countOpen_checkAv_missing (m : String) (a : Option AvPayload)
    (now : Int) (db : DB) :
    countOpen (checkAntivirusAlert m a now db) m AlertType.antivirus_missing =
      if avInstalled a then 0
      else max (countOpen db m AlertType.antivirus_missing) 1 := by
  unfold checkAntivirusAlert
  by_cases hI : avInstalled a = true
  · rw [if_neg (by simp [hI]), if_pos hI]
    by_cases hE : avEnabled a = true
    · rw [if_neg (by simp [hE])]
      by_cases hO : avDefsOutdated a = true
      · rw [if_pos hO, countOpen_create_ne_type _ _ _ _ _ _ _ _ _ (by decide),
          countOpen_resolve_ne_type _ _ _ _ _ _ (by decide), countOpen_resolve_self]
      · rw [if_neg hO, countOpen_resolve_ne_type _ _ _ _ _ _ (by decide),
          countOpen_resolve_ne_type _ _ _ _ _ _ (by decide), countOpen_resolve_self]
    · rw [if_pos (by simp [hE]), countOpen_resolve_self]
  · rw [if_pos (by simp [hI]), if_neg hI]
    exact countOpen_create_self _ _ _ _ _ _ _

theorem countOpen_checkAv_disabled (m : String) (a : Option AvPayload)
    (now : Int) (db : DB) :
    countOpen (checkAntivirusAlert m a now db) m AlertType.antivirus_disabled =
      if avInstalled a then
        (if avEnabled a then 0
         else max (countOpen db m AlertType.antivirus_disabled) 1)
      else countOpen db m AlertType.antivirus_disabled := by
  unfold checkAntivirusAlert
  by_cases hI : avInstalled a = true
  · rw [if_neg (by simp [hI]), if_pos hI]
    by_cases hE : avEnabled a = true
    · rw [if_neg (by simp [hE]), if_pos hE]
      by_cases hO : avDefsOutdated a = true
      · rw [if_pos hO, countOpen_create_ne_type _ _ _ _ _ _ _ _ _ (by decide),
          countOpen_resolve_self]
      · rw [if_neg hO, countOpen_resolve_ne_type _ _ _ _ _ _ (by decide),
          countOpen_resolve_self]
    · rw [if_pos (by simp [hE]), if_neg hE,
        countOpen_resolve_ne_type _ _ _ _ _ _ (by decide)]
      exact countOpen_create_self _ _ _ _ _ _ _
  · rw [if_pos (by simp [hI]), if_neg hI]
    exact countOpen_create_ne_type _ _ _ _ _ _ _ _ _ (by decide)

theorem countOpen_checkAv_outdated (m : String) (a : Option AvPayload)
    (now : Int) (db : DB) :
    countOpen (checkAntivirusAlert m a now db) m AlertType.antivirus_outdated =
      if avInstalled a && avEnabled a then
        (if avDefsOutdated a then
          max (countOpen db m AlertType.antivirus_outdated) 1
         else 0)
      else countOpen db m AlertType.antivirus_outdated := by
  unfold checkAntivirusAlert
  by_cases hI : avInstalled a = true
  · by_cases hE : avEnabled a = true
    · rw [if_neg (show ¬((!avInstalled a) = true) by simp [hI]),
        if_neg (show ¬((!avEnabled a) = true) by simp [hE]),
        if_pos (show (avInstalled a && avEnabled a) = true by simp [hI, hE])]
      by_cases hO : avDefsOutdated a = true
      · rw [if_pos hO, if_pos hO, countOpen_create_self,
          countOpen_resolve_ne_type _ _ _ _ _ _ (by decide),
          countOpen_resolve_ne_type _ _ _ _ _ _ (by decide)]
      · rw [if_neg hO, if_neg hO, countOpen_resolve_self]
    · rw [if_neg (show ¬((!avInstalled a) = true) by simp [hI]),
        if_pos (show ((!avEnabled a) = true) by simp [hE]),
        if_neg (show ¬((avInstalled a && avEnabled a) = true) by simp [hE]),
        countOpen_resolve_ne_type _ _ _ _ _ _ (by decide),
        countOpen_create_ne_type _ _ _ _ _ _ _ _ _ (by decide)]
  · rw [if_pos (show ((!avInstalled a) = true) by simp [hI]),
      if_neg (show ¬((avInstalled a && avEnabled a) = true) by simp [hI]),
      countOpen_create_ne_type _ _ _ _ _ _ _ _ _ (by decide)]

theorem countOpen_checkAv_other (m : String) (a : Option AvPayload)
    (now : Int) (db : DB) (m' : String) (t' : AlertType)
    (h : (t' ≠ AlertType.antivirus_missing ∧ t' ≠ AlertType.antivirus_disabled ∧
          t' ≠ AlertType.antivirus_outdated) ∨ m' ≠ m) :
    countOpen (checkAntivirusAlert m a now db) m' t' = countOpen db m' t' := by
  unfold checkAntivirusAlert
  rcases h with ⟨h1, h2, h3⟩ | h
  · split
    · exact countOpen_create_ne_type _ _ _ _ _ _ _ _ _ h1
    · split
      · rw [countOpen_resolve_ne_type _ _ _ _ _ _ h1,
          countOpen_create_ne_type _ _ _ _ _ _ _ _ _ h2]
      · split
        · rw [countOpen_create_ne_type _ _ _ _ _ _ _ _ _ h3,
            countOpen_resolve_ne_type _ _ _ _ _ _ h2,
            countOpen_resolve_ne_type _ _ _ _ _ _ h1]
        · rw [countOpen_resolve_ne_type _ _ _ _ _ _ h3,
            countOpen_resolve_ne_type _ _ _ _ _ _ h2,
            countOpen_resolve_ne_type _ _ _ _ _ _ h1]
  · split
    · exact countOpen_create_ne_machine _ _ _ _ _ _ _ _ _ h
    · split
      · rw [countOpen_resolve_ne_machine _ _ _ _ _ _ h,
          countOpen_create_ne_machine _ _ _ _ _ _ _ _ _ h]
      · split
        · rw [countOpen_create_ne_machine _ _ _ _ _ _ _ _ _ h,
            countOpen_resolve_ne_machine _ _ _ _ _ _ h,
            countOpen_resolve_ne_machine _ _ _ _ _ _ h]
        · rw [countOpen_resolve_ne_machine _ _ _ _ _ _ h,
            countOpen_resolve_ne_machine _ _ _ _ _ _ h,
            countOpen_resolve_ne_machine _ _ _ _ _ _ h]

theorem countOpen_analyze (s : SystemData) (now : Int) (db : DB)
    (t : AlertType) :
    countOpen (analyzeSystemData s now db) s.machineId t =
      if createsType s t then max (countOpen db s.machineId t) 1
      else if resolvesType s t then 0
      else countOpen db s.machineId t := by
  unfold analyzeSystemData
  cases t with
  | disk_encryption =>
    rw [countOpen_checkSleep_other _ _ _ _ _ _ (Or.inl (by decide)),
      countOpen_checkAv_other _ _ _ _ _ _ (Or.inl (by decide)),
      countOpen_checkOS_other _ _ _ _ _ _ (Or.inl (by decide)),
      countOpen_checkDisk_self]
    by_cases h : diskNonCompliant s.diskEncryption = true
    · rw [if_pos h, if_pos (show createsType s AlertType.disk_encryption = true from h)]
    · rw [if_neg h, if_neg (show ¬(createsType s AlertType.disk_encryption = true) from h),
        if_pos (show resolvesType s AlertType.disk_encryption = true by
          simp [resolvesType, h])]
  | os_updates =>
    rw [countOpen_checkSleep_other _ _ _ _ _ _ (Or.inl (by decide)),
      countOpen_checkAv_other _ _ _ _ _ _ (Or.inl (by decide)),
      countOpen_checkOS_self,
      countOpen_checkDisk_other _ _ _ _ _ _ (Or.inl (by decide))]
    by_cases h : osNonCompliant s.osUpdates = true
    · rw [if_pos h, if_pos (show createsType s AlertType.os_updates = true from h)]
    · rw [if_neg h, if_neg (show ¬(createsType s AlertType.os_updates = true) from h),
        if_pos (show resolvesType s AlertType.os_updates = true by
          simp [resolvesType, h])]
  | antivirus_missing =>
    rw [countOpen_checkSleep_other _ _ _ _ _ _ (Or.inl (by decide)),
      countOpen_checkAv_missing,
      countOpen_checkOS_other _ _ _ _ _ _ (Or.inl (by decide)),
      countOpen_checkDisk_other _ _ _ _ _ _ (Or.inl (by decide))]
    by_cases h : avInstalled s.antivirus = true
    · rw [if_pos h,
        if_neg (show ¬(createsType s AlertType.antivirus_missing = true) by
          simp [createsType, h]),
        if_pos (show resolvesType s AlertType.antivirus_missing = true from h)]
    · rw [if_neg h,
        if_pos (show createsType s AlertType.antivirus_missing = true by
          simp [createsType, h])]
  | antivirus_disabled =>
    rw [countOpen_checkSleep_other _ _ _ _ _ _ (Or.inl (by decide)),
      countOpen_checkAv_disabled,
      countOpen_checkOS_other _ _ _ _ _ _ (Or.inl (by decide)),
      countOpen_checkDisk_other _ _ _ _ _ _ (Or.inl (by decide))]
    by_cases hI : avInstalled s.antivirus = true
    · by_cases hE : avEnabled s.antivirus = true
      · rw [if_pos hI, if_pos hE,
          if_neg (show ¬(createsType s AlertType.antivirus_disabled = true) by
            simp [createsType, hE]),
          if_pos (show resolvesType s AlertType.antivirus_disabled = true by
            simp [resolvesType, hI, hE])]
      · rw [if_pos hI, if_neg hE,
          if_pos (show createsType s AlertType.antivirus_disabled = true by
            simp [createsType, hI, hE])]
    · rw [if_neg hI,
        if_neg (show ¬(createsType s AlertType.antivirus_disabled = true) by
          simp [createsType, hI]),
        if_neg (show ¬(resolvesType s AlertType.antivirus_disabled = true) by
          simp [resolvesType, hI])]
  | antivirus_outdated =>
    rw [countOpen_checkSleep_other _ _ _ _ _ _ (Or.inl (by decide)),
      countOpen_checkAv_outdated,
      countOpen_checkOS_other _ _ _ _ _ _ (Or.inl (by decide)),
      countOpen_checkDisk_other _ _ _ _ _ _ (Or.inl (by decide))]
    by_cases hI : avInstalled s.antivirus = true
    · by_cases hE : avEnabled s.antivirus = true
      · by_cases hO : avDefsOutdated s.antivirus = true
        · rw [if_pos (show (avInstalled s.antivirus && avEnabled s.antivirus) = true by
              simp [hI, hE]), if_pos hO,
            if_pos (show createsType s AlertType.antivirus_outdated = true by
              simp [createsType, hI, hE, hO])]
        · rw [if_pos (show (avInstalled s.antivirus && avEnabled s.antivirus) = true by
              simp [hI, hE]), if_neg hO,
            if_neg (show ¬(createsType s AlertType.antivirus_outdated = true) by
              simp [createsType, hO]),
            if_pos (show resolvesType s AlertType.antivirus_outdated = true by
              simp [resolvesType, hI, hE, hO])]
      · rw [if_neg (show ¬((avInstalled s.antivirus && avEnabled s.antivirus) = true) by
            simp [hE]),
          if_neg (show ¬(createsType s AlertType.antivirus_outdated = true) by
            simp [createsType, hE]),
          if_neg (show ¬(resolvesType s AlertType.antivirus_outdated = true) by
            simp [resolvesType, hE])]
    · rw [if_neg (show ¬((avInstalled s.antivirus && avEnabled s.antivirus) = true) by
          simp [hI]),
        if_neg (show ¬(createsType s AlertType.antivirus_outdated = true) by
          simp [createsType, hI]),
        if_neg (show ¬(resolvesType s AlertType.antivirus_outdated = true) by
          simp [resolvesType, hI])]
  | sleep_timeout =>
    rw [countOpen_checkSleep_self,
      countOpen_checkAv_other _ _ _ _ _ _ (Or.inl (by decide)),
      countOpen_checkOS_other _ _ _ _ _ _ (Or.inl (by decide)),
      countOpen_checkDisk_other _ _ _ _ _ _ (Or.inl (by decide))]
    by_cases h : sleepNonCompliant s.sleepSettings = true
    · rw [if_pos h, if_pos (show createsType s AlertType.sleep_timeout = true from h)]
    · rw [if_neg h, if_neg (show ¬(createsType s AlertType.sleep_timeout = true) from h),
        if_pos (show resolvesType s AlertType.sleep_timeout = true by
          simp [resolvesType, h])]

theorem countOpen_analyze_ne_machine (s : SystemData) (now : Int) (db : DB)
    (m' : String) (t : AlertType) (h : m' ≠ s.machineId) :
    countOpen (analyzeSystemData s now db) m' t = countOpen db m' t := by
  unfold analyzeSystemData
  rw [countOpen_checkSleep_other _ _ _ _ _ _ (Or.inr h),
    countOpen_checkAv_other _ _ _ _ _ _ (Or.inr h),
    countOpen_checkOS_other _ _ _ _ _ _ (Or.inr h),
    countOpen_checkDisk_other _ _ _ _ _ _ (Or.inr h)]

theorem analyze_preserves_AtMostOneOpen (s : SystemData) (now : Int)
    (db : DB) (h : AtMostOneOpen db) :
    AtMostOneOpen (analyzeSystemData s now db) := by
  intro m t
  by_cases hm : m = s.machineId
  · subst hm
    rw [countOpen_analyze]
    have := h s.machineId t
    split
    · omega
    · split
      · omega
      · omega
  · rw [countOpen_analyze_ne_machine _ _ _ _ _ hm]
    exact h m t

theorem openMatch_fields (m : String) (t : AlertType) (r : AlertRecord)
    (h : openMatch m t r = true) :
    r.machineId = m ∧ r.alertType = t ∧ r.isResolved = false := by
  simp [openMatch] at h
  exact ⟨h.1.1, h.1.2, h.2⟩

theorem create_mem_new (db : DB) (m : String) (t : AlertType)
    (sev : Severity) (ti ms : String) (now : Int)
    (h : countOpen db m t = 0) :
    ∃ r ∈ createAlertIfNotExists db m t sev ti ms now,
      openMatch m t r = true ∧ r.severity = sev := by
  unfold createAlertIfNotExists
  have h0 : ∀ a ∈ db, ¬(openMatch m t a = true) := by
    rw [countOpen, List.countP_eq_zero] at h
    exact h
  have hany : ¬(db.any (openMatch m t) = true) := by
    rw [List.any_eq_true]
    rintro ⟨a, ha, hpa⟩
    exact h0 a ha hpa
  rw [if_neg hany]
  refine ⟨{ machineId := m, alertType := t, severity := sev, title := ti,
            message := ms, isResolved := false, createdAt := now,
            resolvedAt := none }, ?_, ?_, rfl⟩
  · simp
  · simp [openMatch]

theorem mem_resolve_of_not_match (db : DB) (m : String) (t : AlertType)
    (now : Int) (r : AlertRecord) (hr : r ∈ db)
    (h : openMatch m t r = false) :
    r ∈ resolveAlertByType db m t now := by
  unfold resolveAlertByType
  have h1 := List.mem_map_of_mem
    (fun r => if openMatch m t r then
        { r with isResolved := true, resolvedAt := some now } else r) hr
  simpa [h] using h1

theorem mem_resolve_modified (db : DB) (m : String) (t : AlertType)
    (now : Int) (r : AlertRecord) (hr : r ∈ db)
    (h : openMatch m t r = true) :
    { r with isResolved := true, resolvedAt := some now } ∈
      resolveAlertByType db m t now := by
  unfold resolveAlertByType
  have h1 := List.mem_map_of_mem
    (fun r => if openMatch m t r then
        { r with isResolved := true, resolvedAt := some now } else r) hr
  simpa [h] using h1

theorem resolve_noop_of_none (db : DB) (m : String) (t : AlertType)
    (now : Int) (h : countOpen db m t = 0) :
    resolveAlertByType db m t now = db := by
  have h0 : ∀ a ∈ db, openMatch m t a = false := by
    rw [countOpen, List.countP_eq_zero] at h
    intro a ha
    simpa using h a ha
  unfold resolveAlertByType
  have : ∀ a ∈ db,
      (if openMatch m t a then
        { a with isResolved := true, resolvedAt := some now } else a) = id a := by
    intro a ha
    rw [if_neg (by simp [h0 a ha])]
    rfl
  rw [List.map_congr_left this, List.map_id]

theorem creates_resolves_exclusive (s : SystemData) (t : AlertType)
    (h : resolvesType s t = true) : createsType s t = false := by
  cases t <;> simp [createsType, resolvesType] at * <;> simp [h]

theorem foldl_weight_eq_sum (l : List AlertRecord) (acc : Nat) :
    l.foldl (fun acc a => acc + severityWeight a.severity) acc =
      acc + (l.map (fun a => severityWeight a.severity)).sum := by
  induction l generalizing acc with
  | nil => simp
  | cons a l ih =>
    simp [List.foldl_cons, ih]
    omega

theorem checkDiskEncryption_encrypted_none (pl : Platform) (ok flag : Bool)
    (out msg : String) :
    (checkDiskEncryption pl ok flag out msg).encrypted = none := by
  cases ok <;> cases pl <;> rfl

theorem checkOSUpdates_upToDate_none (pl : Platform) (ok avail : Bool)
    (out msg : String) :
    (checkOSUpdates pl ok avail out msg).upToDate = none := by
  cases ok <;> cases pl <;> rfl

theorem checkAntivirus_enabled_none (pl : Platform) (ok det run : Bool)
    (out msg : String) :
    (checkAntivirus pl ok det run out msg).enabled = none := by
  cases ok <;> cases pl <;> cases det <;> rfl

theorem checkSleepSettings_sleepTimeout_none (pl : Platform) (ok : Bool)
    (st : Option Int) (cf : Bool) (out msg : String) :
    (checkSleepSettings pl ok st cf out msg).sleepTimeout = none := by
  cases ok <;> cases pl <;> rfl

/-- The machine identifier used by the concrete examples below. -/
def m1 : String := "m1"

/-- System data with disk encryption reported off and everything else
compliant — the scenario of spec section 8. -/
def sampleDiskBad : SystemData :=
  { machineId := m1,
    diskEncryption := some { encrypted := some false },
    osUpdates := some { upToDate := some true },
    antivirus := some { installed := some true, enabled := some true,
                        definitionsOutdated := some false },
    sleepSettings := some { sleepTimeout := some 5 } }

/-- System data with pending OS updates and a failing disk category —
used to exercise the single try/catch of `analyzeSystemData`. -/
def sampleOsBad : SystemData :=
  { machineId := m1,
    diskEncryption := some { encrypted := some true },
    osUpdates := some { upToDate := some false },
    antivirus := some { installed := some true, enabled := some true,
                        definitionsOutdated := some false },
    sleepSettings := some { sleepTimeout := some 5 } }

/-- An antivirus payload that is installed, enabled and has outdated
definitions. -/
def sampleAvOutdated : Option AvPayload :=
  some { installed := some true, enabled := some true,
         definitionsOutdated := some true }

/-- The `{error: true, message}` marker `safeRun` returns when the
sleep-settings probe fails: a truthy object with no `sleepTimeout`. -/
def sleepErrorMarker : SleepPayload :=
  { error := some true, info := "Failed to check sleep settings" }

/-- One open high-severity alert row for machine `m1`. -/
def sampleHighAlert : AlertRecord :=
  { machineId := m1, alertType := AlertType.disk_encryption,
    severity := Severity.high, title := diskTitle, message := diskMsg m1,
    isResolved := false, createdAt := 0, resolvedAt := none }

/-- A resolved alert row for `m1` whose `resolvedAt` lies far in the past. -/
def sampleResolvedOld : AlertRecord :=
  { machineId := m1, alertType := AlertType.os_updates,
    severity := Severity.medium, title := osTitle, message := osMsgPending m1,
    isResolved := true, createdAt := 0, resolvedAt := some 0 }

/-- A client snapshot for `m1` (timestamp 0). -/
def sampleSnap : Snapshot :=
  { machineId := m1, platform := "darwin", hostname := "host-a",
    timestamp := 0, osInfoRepr := "osinfo",
    diskEncryption := { enabled := some true },
    osUpdates := { updatesAvailable := some false },
    antivirus := { installed := some true, running := some true },
    sleepSettings := { sleepTime := some 5, compliant := some true },
    systemInfoRepr := "sysinfo" }

/-- The same machine one hour later: identical category payloads, fresh
timestamp and changed load metadata. -/
def sampleSnapLater : Snapshot :=
  { sampleSnap with timestamp := 3600000, systemInfoRepr := "sysinfo2" }

/-- Claim C1: `createAlertIfNotExists` inserts only when no unresolved
record of the same `(machineId, alertType)` exists, so it and the whole
`analyzeSystemData` pass preserve the at-most-one-open-alert invariant;
and running `analyzeSystemData` twice on the same snapshot with a
non-compliant condition of type `t` leaves exactly one open record of
type `t`. -/
theorem analyze_at_most_one_open :
    (∀ (db : DB) (m : String) (t : AlertType) (sev : Severity)
       (ti ms : String) (now : Int),
       AtMostOneOpen db →
       AtMostOneOpen (createAlertIfNotExists db m t sev ti ms now)) ∧
    (∀ (s : SystemData) (now : Int) (db : DB),
       AtMostOneOpen db → AtMostOneOpen (analyzeSystemData s now db)) ∧
    (∀ (s : SystemData) (now1 now2 : Int) (db : DB) (t : AlertType),
       AtMostOneOpen db → createsType s t = true →
       countOpen (analyzeSystemData s now2 (analyzeSystemData s now1 db))
         s.machineId t = 1) := by
  refine ⟨?_, ?_, ?_⟩
  · intro db m t sev ti ms now h m' t'
    by_cases hm : m' = m
    · by_cases ht : t' = t
      · subst hm; subst ht
        rw [countOpen_create_self]
        have := h m' t'
        omega
      · rw [countOpen_create_ne_type _ _ _ _ _ _ _ _ _ ht]
        exact h m' t'
    · rw [countOpen_create_ne_machine _ _ _ _ _ _ _ _ _ hm]
      exact h m' t'
  · exact fun s now db h => analyze_preserves_AtMostOneOpen s now db h
  · intro s now1 now2 db t h hc
    have h1 : AtMostOneOpen (analyzeSystemData s now1 db) :=
      analyze_preserves_AtMostOneOpen s now1 db h
    rw [countOpen_analyze, if_pos hc, countOpen_analyze, if_pos hc]
    have := h s.machineId t
    omega

/-- Witness for C1 at concrete inputs: the empty store satisfies the
invariant, the sample snapshot has a non-compliant disk condition, and two
analyses leave exactly one open `disk_encryption` record. -/
theorem analyze_at_most_one_open_witness :
    AtMostOneOpen ([] : DB) ∧
    createsType sampleDiskBad AlertType.disk_encryption = true ∧
    countOpen (analyzeSystemData sampleDiskBad 1 (analyzeSystemData sampleDiskBad 0 []))
      sampleDiskBad.machineId AlertType.disk_encryption = 1 := by
  have hinv : AtMostOneOpen ([] : DB) := by
    intro m t
    simp [countOpen]
  exact ⟨hinv, by rfl,
    analyze_at_most_one_open.2.2 sampleDiskBad 0 1 [] AlertType.disk_encryption
      hinv (by rfl)⟩

/-- Claim C2: the client transmits exactly when there is no previous
transmitted snapshot, or one of the four category payloads differs
structurally from the previous one (timestamp and the other fields are not
compared), or at least 24 hours have elapsed since the previous
transmission; with identical category payloads and under 24 hours it does
not transmit. -/
theorem shouldSend_decision_rule :
    (∀ (cur : Snapshot) (nowMs : Int),
      shouldSendSnapshot none cur nowMs = true) ∧
    (∀ (p cur : Snapshot) (nowMs : Int),
      shouldSendSnapshot (some p) cur nowMs = true ↔
        (p.diskEncryption ≠ cur.diskEncryption ∨
         p.osUpdates ≠ cur.osUpdates ∨
         p.antivirus ≠ cur.antivirus ∨
         p.sleepSettings ≠ cur.sleepSettings ∨
         24 * 3600000 ≤ nowMs - p.timestamp)) ∧
    (∀ (p cur : Snapshot) (nowMs : Int),
      p.diskEncryption = cur.diskEncryption →
      p.osUpdates = cur.osUpdates →
      p.antivirus = cur.antivirus →
      p.sleepSettings = cur.sleepSettings →
      nowMs - p.timestamp < 24 * 3600000 →
      shouldSendSnapshot (some p) cur nowMs = false) := by
  refine ⟨?_, ?_, ?_⟩
  · intro cur nowMs
    rfl
  · intro p cur nowMs
    simp [shouldSendSnapshot, hasStateChanged, shouldSendHeartbeat]
    tauto
  · intro p cur nowMs h1 h2 h3 h4 h5
    simp [shouldSendSnapshot, hasStateChanged, shouldSendHeartbeat, h1, h2, h3, h4]
    omega

/-- Witness for C2 at concrete inputs: one hour after a transmission, the
same category payloads are not retransmitted. -/
theorem shouldSend_decision_rule_witness :
    shouldSendSnapshot (some sampleSnap) sampleSnapLater 3600000 = false :=
  shouldSend_decision_rule.2.2 sampleSnap sampleSnapLater 3600000
    (by rfl) (by rfl) (by rfl) (by rfl) (by decide)

/-- Counterexample to claim C3: `analyzeSystemData` wraps all four category
checks in one `try`/`catch`, so when the disk-encryption check's data
access fails on a snapshot with pending OS updates, the OS-updates rule
never runs (no `os_updates` alert appears), although the same snapshot
with no failure does produce one. -/
theorem category_failure_not_isolated_cex :
    countOpen (analyzeSystemDataF true false false false sampleOsBad 0 [])
      m1 AlertType.os_updates = 0 ∧
    countOpen (analyzeSystemData sampleOsBad 0 [])
      m1 AlertType.os_updates = 1 := by
  constructor
  · rfl
  · rfl

/-- Claim C3 as amended: a category rule's data-access failure is caught by
the single `try`/`catch` of `analyzeSystemData` — the call still returns
and earlier categories' effects are kept — but the categories after the
failing one do not run for that snapshot (a failure in the first category
leaves the store untouched). -/
theorem category_failure_aborts_later_rules :
    ∀ (s : SystemData) (now : Int) (db : DB) (fo fa fs : Bool),
      analyzeSystemDataF true fo fa fs s now db = db ∧
      analyzeSystemDataF false true fa fs s now db =
        checkDiskEncryptionAlert s.machineId s.diskEncryption now db ∧
      analyzeSystemDataF false false true fs s now db =
        checkOSUpdatesAlert s.machineId s.osUpdates now
          (checkDiskEncryptionAlert s.machineId s.diskEncryption now db) ∧
      analyzeSystemDataF false false false true s now db =
        checkAntivirusAlert s.machineId s.antivirus now
          (checkOSUpdatesAlert s.machineId s.osUpdates now
            (checkDiskEncryptionAlert s.machineId s.diskEncryption now db)) ∧
      analyzeSystemDataF false false false false s now db =
        analyzeSystemData s now db ∧
      countOpen (analyzeSystemDataF false true fa fs s now db)
          s.machineId AlertType.os_updates =
        countOpen db s.machineId AlertType.os_updates := by
  intro s now db fo fa fs
  refine ⟨rfl, rfl, rfl, rfl, rfl, ?_⟩
  show countOpen (checkDiskEncryptionAlert s.machineId s.diskEncryption now db)
      s.machineId AlertType.os_updates =
    countOpen db s.machineId AlertType.os_updates
  exact countOpen_checkDisk_other _ _ _ _ _ _ (Or.inl (by decide))

theorem analyze_probe_counts (s : SystemData) (now : Int)
    (hd : createsType s AlertType.disk_encryption = true)
    (ho : createsType s AlertType.os_updates = true)
    (hs2 : resolvesType s AlertType.sleep_timeout = true)
    (hE : avEnabled s.antivirus = false) :
    countOpen (analyzeSystemData s now []) s.machineId AlertType.disk_encryption = 1 ∧
    countOpen (analyzeSystemData s now []) s.machineId AlertType.os_updates = 1 ∧
    countOpen (analyzeSystemData s now []) s.machineId AlertType.antivirus_disabled =
      (if avInstalled s.antivirus then 1 else 0) ∧
    countOpen (analyzeSystemData s now []) s.machineId AlertType.sleep_timeout = 0 := by
  refine ⟨?_, ?_, ?_, ?_⟩
  · rw [countOpen_analyze, if_pos hd]
    simp [countOpen]
  · rw [countOpen_analyze, if_pos ho]
    simp [countOpen]
  · by_cases hI : avInstalled s.antivirus = true
    · have hc : createsType s AlertType.antivirus_disabled = true := by
        simp [createsType, hI, hE]
      rw [countOpen_analyze, if_pos hc, if_pos hI]
      simp [countOpen]
    · have hc : createsType s AlertType.antivirus_disabled = false := by
        simp [createsType, hI]
      have hr : resolvesType s AlertType.antivirus_disabled = false := by
        simp [resolvesType, hI]
      rw [countOpen_analyze, if_neg (by simp [hc]), if_neg (by simp [hr]),
        if_neg hI]
      simp [countOpen]
  · have hc : createsType s AlertType.sleep_timeout = false :=
      creates_resolves_exclusive s _ hs2
    rw [countOpen_analyze, if_neg (by simp [hc]), if_pos hs2]

/-- Claim C4: on every snapshot assembled by `getSystemState` from the
probe's outputs — any platform, any command-parse outcome — the fields the
engine's predicates read (`encrypted`, `upToDate`, `enabled`,
`sleepTimeout`) are absent, so `analyzeSystemData` always opens a
`disk_encryption` and an `os_updates` alert, opens `antivirus_disabled`
exactly when the probe reported antivirus installed, and never opens a
`sleep_timeout` alert, independent of the actual host state. -/
theorem probe_engine_field_mismatch :
    ∀ (mid : String) (pl : Platform) (ps hn oir sir : String)
      (ts now : Int) (pr : ProbeRun),
      (getSystemState mid pl ps hn oir sir ts pr).diskEncryption.encrypted = none ∧
      (getSystemState mid pl ps hn oir sir ts pr).osUpdates.upToDate = none ∧
      (getSystemState mid pl ps hn oir sir ts pr).antivirus.enabled = none ∧
      (getSystemState mid pl ps hn oir sir ts pr).sleepSettings.sleepTimeout = none ∧
      countOpen (analyzeSystemData
          (snapshotToSystemData (getSystemState mid pl ps hn oir sir ts pr)) now [])
        mid AlertType.disk_encryption = 1 ∧
      countOpen (analyzeSystemData
          (snapshotToSystemData (getSystemState mid pl ps hn oir sir ts pr)) now [])
        mid AlertType.os_updates = 1 ∧
      countOpen (analyzeSystemData
          (snapshotToSystemData (getSystemState mid pl ps hn oir sir ts pr)) now [])
        mid AlertType.antivirus_disabled =
        (if truthy (getSystemState mid pl ps hn oir sir ts pr).antivirus.installed
         then 1 else 0) ∧
      countOpen (analyzeSystemData
          (snapshotToSystemData (getSystemState mid pl ps hn oir sir ts pr)) now [])
        mid AlertType.sleep_timeout = 0 := by
  intro mid pl ps hn oir sir ts now pr
  have f1 : (getSystemState mid pl ps hn oir sir ts pr).diskEncryption.encrypted = none :=
    checkDiskEncryption_encrypted_none pl pr.diskOk pr.diskFlag pr.diskOut pr.diskErr
  have f2 : (getSystemState mid pl ps hn oir sir ts pr).osUpdates.upToDate = none :=
    checkOSUpdates_upToDate_none pl pr.osOk pr.osAvail pr.osOut pr.osErr
  have f3 : (getSystemState mid pl ps hn oir sir ts pr).antivirus.enabled = none :=
    checkAntivirus_enabled_none pl pr.avOk pr.avDetected pr.avRunning pr.avOut pr.avErr
  have f4 : (getSystemState mid pl ps hn oir sir ts pr).sleepSettings.sleepTimeout = none :=
    checkSleepSettings_sleepTimeout_none pl pr.sleepOk pr.sleepTimeVal
      pr.sleepCompliant pr.sleepOut pr.sleepErr
  have hd : createsType
      (snapshotToSystemData (getSystemState mid pl ps hn oir sir ts pr))
      AlertType.disk_encryption = true := by
    simp [createsType, snapshotToSystemData, diskNonCompliant, truthy, f1]
  have ho : createsType
      (snapshotToSystemData (getSystemState mid pl ps hn oir sir ts pr))
      AlertType.os_updates = true := by
    simp [createsType, snapshotToSystemData, osNonCompliant, truthy, f2]
  have hs2 : resolvesType
      (snapshotToSystemData (getSystemState mid pl ps hn oir sir ts pr))
      AlertType.sleep_timeout = true := by
    simp [resolvesType, snapshotToSystemData, sleepNonCompliant, jsGtInt, f4]
  have hE : avEnabled
      (snapshotToSystemData (getSystemState mid pl ps hn oir sir ts pr)).antivirus = false := by
    simp [snapshotToSystemData, avEnabled, truthy, f3]
  have hc := analyze_probe_counts
    (snapshotToSystemData (getSystemState mid pl ps hn oir sir ts pr)) now hd ho hs2 hE
  exact ⟨f1, f2, f3, f4, hc.1, hc.2.1, hc.2.2.1, hc.2.2.2⟩

theorem beq_false_eq_not (b : Bool) : (b == false) = !b := by
  cases b <;> rfl

theorem getAlerts_open_eq_sort (db : DB) (m : String)
    (h : (db.filter (fun r => !r.isResolved && r.machineId == m)).length ≤ 100) :
    getAlerts db (some m) false 100 =
      (db.filter (fun r => !r.isResolved && r.machineId == m)).mergeSort
        (fun a b => decide (b.createdAt ≤ a.createdAt)) := by
  have hfe : db.filter (fun r => r.isResolved == false && r.machineId == m) =
      db.filter (fun r => !r.isResolved && r.machineId == m) :=
    List.filter_congr (fun r _ => by cases r.isResolved <;> rfl)
  simp only [getAlerts]
  rw [hfe, List.take_of_length_le]
  rw [List.length_mergeSort]
  exact h

/-- Claim C5: with weights critical=10, high=7, medium=4, low=1, the
machine's `rawScore` is the sum of weights over its open alerts (the store
query returns at most 100 rows, which covers every state the engine's
at-most-one-open invariant allows), the returned `score` is
`min 100 (rawScore / 50 * 100)`, the `level` thresholds are 80/60/30 on
that score, a machine whose only open alert is one high-severity alert
gets `{score := 14, level := low, alertCount := 1, rawScore := 7}`, and the
score never exceeds 100. -/
theorem risk_score_spec :
    (∀ (db : DB) (m : String),
      (db.filter (fun r => !r.isResolved && r.machineId == m)).length ≤ 100 →
      (getMachineRiskScore db m).rawScore =
        ((db.filter (fun r => !r.isResolved && r.machineId == m)).map
          (fun r => severityWeight r.severity)).sum ∧
      (getMachineRiskScore db m).alertCount =
        (db.filter (fun r => !r.isResolved && r.machineId == m)).length ∧
      (getMachineRiskScore db m).score =
        min 100 ((getMachineRiskScore db m).rawScore * 2)) ∧
    (∀ (db : DB) (m : String), (getMachineRiskScore db m).score ≤ 100) ∧
    (∀ (db : DB) (m : String),
      (getMachineRiskScore db m).level =
        (if 80 ≤ (getMachineRiskScore db m).score then Severity.critical
         else if 60 ≤ (getMachineRiskScore db m).score then Severity.high
         else if 30 ≤ (getMachineRiskScore db m).score then Severity.medium
         else Severity.low)) ∧
    getMachineRiskScore [sampleHighAlert] m1 =
      { score := 14, level := Severity.low, alertCount := 1, rawScore := 7 } := by
  refine ⟨?_, ?_, ?_, ?_⟩
  · intro db m hlen
    have hsort := getAlerts_open_eq_sort db m hlen
    have hperm := List.mergeSort_perm
      (db.filter (fun r => !r.isResolved && r.machineId == m))
      (fun a b => decide (b.createdAt ≤ a.createdAt))
    refine ⟨?_, ?_, ?_⟩
    · rw [show (getMachineRiskScore db m).rawScore =
          (getAlerts db (some m) false 100).foldl
            (fun acc a => acc + severityWeight a.severity) 0 from rfl,
        foldl_weight_eq_sum, hsort]
      rw [Nat.zero_add]
      exact (hperm.map (fun r => severityWeight r.severity)).sum_eq
    · rw [show (getMachineRiskScore db m).alertCount =
          (getAlerts db (some m) false 100).length from rfl, hsort,
        List.length_mergeSort]
    · rw [show (getMachineRiskScore db m).score =
          min 100 ((getMachineRiskScore db m).rawScore * 100 / 50) from rfl]
      have h2 : (getMachineRiskScore db m).rawScore * 100 / 50 =
          (getMachineRiskScore db m).rawScore * 2 := by omega
      rw [h2]
  · intro db m
    exact Nat.min_le_left 100 _
  · intro db m
    rfl
  · have halerts : getAlerts [sampleHighAlert] (some m1) false 100 =
        [sampleHighAlert] := by
      rw [getAlerts_open_eq_sort [sampleHighAlert] m1 (by decide)]
      rw [show List.filter (fun r => !r.isResolved && r.machineId == m1)
          [sampleHighAlert] = [sampleHighAlert] from by decide]
      exact List.mergeSort_singleton _
    rw [show getMachineRiskScore [sampleHighAlert] m1 =
        { score := min 100 ((getAlerts [sampleHighAlert] (some m1) false 100).foldl
            (fun acc a => acc + severityWeight a.severity) 0 * 100 / 50),
          level := if 80 ≤ min 100 ((getAlerts [sampleHighAlert] (some m1) false 100).foldl
              (fun acc a => acc + severityWeight a.severity) 0 * 100 / 50)
            then Severity.critical
            else if 60 ≤ min 100 ((getAlerts [sampleHighAlert] (some m1) false 100).foldl
                (fun acc a => acc + severityWeight a.severity) 0 * 100 / 50)
              then Severity.high
            else if 30 ≤ min 100 ((getAlerts [sampleHighAlert] (some m1) false 100).foldl
                (fun acc a => acc + severityWeight a.severity) 0 * 100 / 50)
              then Severity.medium
            else Severity.low,
          alertCount := (getAlerts [sampleHighAlert] (some m1) false 100).length,
          rawScore := (getAlerts [sampleHighAlert] (some m1) false 100).foldl
            (fun acc a => acc + severityWeight a.severity) 0 } from rfl,
      halerts]
    rfl

/-- Witness for C5 at a concrete input: the single-high-alert store has one
open row for `m1`, and the characterization instantiates to
`rawScore = 7`, `alertCount = 1`, `score = 14`. -/
theorem risk_score_spec_witness :
    (([sampleHighAlert] : DB).filter
      (fun r => !r.isResolved && r.machineId == m1)).length ≤ 100 ∧
    (getMachineRiskScore [sampleHighAlert] m1).rawScore =
      ((([sampleHighAlert] : DB).filter
        (fun r => !r.isResolved && r.machineId == m1)).map
          (fun r => severityWeight r.severity)).sum :=
  ⟨by decide, (risk_score_spec.1 [sampleHighAlert] m1 (by decide)).1⟩

/-- Claim C6: the antivirus rule evaluates its three sub-states in order.
Not installed: one open high `antivirus_missing` alert, the other two
antivirus counts untouched.  Installed but not enabled: a medium
`antivirus_disabled` alert, `antivirus_missing` resolved, `antivirus_outdated`
untouched.  Installed and enabled: both resolved, then `antivirus_outdated`
is created or resolved according to `definitionsOutdated`; in particular
installed+enabled+outdated yields exactly one open alert
(`antivirus_outdated`) and zero open missing/disabled alerts. -/
theorem antivirus_ordered_evaluation :
    ∀ (m : String) (a : Option AvPayload) (now : Int) (db : DB),
      AtMostOneOpen db →
      (avInstalled a = false →
        countOpen (checkAntivirusAlert m a now db) m AlertType.antivirus_missing = 1 ∧
        countOpen (checkAntivirusAlert m a now db) m AlertType.antivirus_disabled =
          countOpen db m AlertType.antivirus_disabled ∧
        countOpen (checkAntivirusAlert m a now db) m AlertType.antivirus_outdated =
          countOpen db m AlertType.antivirus_outdated ∧
        (countOpen db m AlertType.antivirus_missing = 0 →
          ∃ r ∈ checkAntivirusAlert m a now db,
            openMatch m AlertType.antivirus_missing r = true ∧
            r.severity = Severity.high)) ∧
      (avInstalled a = true → avEnabled a = false →
        countOpen (checkAntivirusAlert m a now db) m AlertType.antivirus_missing = 0 ∧
        countOpen (checkAntivirusAlert m a now db) m AlertType.antivirus_disabled = 1 ∧
        countOpen (checkAntivirusAlert m a now db) m AlertType.antivirus_outdated =
          countOpen db m AlertType.antivirus_outdated ∧
        (countOpen db m AlertType.antivirus_disabled = 0 →
          ∃ r ∈ checkAntivirusAlert m a now db,
            openMatch m AlertType.antivirus_disabled r = true ∧
            r.severity = Severity.medium)) ∧
      (avInstalled a = true → avEnabled a = true → avDefsOutdated a = true →
        countOpen (checkAntivirusAlert m a now db) m AlertType.antivirus_missing = 0 ∧
        countOpen (checkAntivirusAlert m a now db) m AlertType.antivirus_disabled = 0 ∧
        countOpen (checkAntivirusAlert m a now db) m AlertType.antivirus_outdated = 1) ∧
      (avInstalled a = true → avEnabled a = true → avDefsOutdated a = false →
        countOpen (checkAntivirusAlert m a now db) m AlertType.antivirus_missing = 0 ∧
        countOpen (checkAntivirusAlert m a now db) m AlertType.antivirus_disabled = 0 ∧
        countOpen (checkAntivirusAlert m a now db) m AlertType.antivirus_outdated = 0) := by
  intro m a now db hinv
  refine ⟨?_, ?_, ?_, ?_⟩
  · intro hI
    have hbody : checkAntivirusAlert m a now db =
        createAlertIfNotExists db m AlertType.antivirus_missing Severity.high
          avMissingTitle (avMissingMsg m) now := by
      unfold checkAntivirusAlert
      rw [if_pos (show (!avInstalled a) = true by simp [hI])]
    refine ⟨?_, ?_, ?_, ?_⟩
    · rw [countOpen_checkAv_missing, if_neg (by simp [hI])]
      have := hinv m AlertType.antivirus_missing
      omega
    · rw [countOpen_checkAv_disabled, if_neg (by simp [hI])]
    · rw [countOpen_checkAv_outdated, if_neg (by simp [hI])]
    · intro h0
      rw [hbody]
      exact create_mem_new db m AlertType.antivirus_missing Severity.high
        avMissingTitle (avMissingMsg m) now h0
  · intro hI hE
    refine ⟨?_, ?_, ?_, ?_⟩
    · rw [countOpen_checkAv_missing, if_pos hI]
    · rw [countOpen_checkAv_disabled, if_pos hI, if_neg (by simp [hE])]
      have := hinv m AlertType.antivirus_disabled
      omega
    · rw [countOpen_checkAv_outdated, if_neg (by simp [hE])]
    · intro h0
      have hbody : checkAntivirusAlert m a now db =
          resolveAlertByType
            (createAlertIfNotExists db m AlertType.antivirus_disabled
              Severity.medium avDisabledTitle (avDisabledMsg m) now)
            m AlertType.antivirus_missing now := by
        unfold checkAntivirusAlert
        rw [if_neg (show ¬((!avInstalled a) = true) by simp [hI]),
          if_pos (show (!avEnabled a) = true by simp [hE])]
      obtain ⟨r, hrmem, hropen, hrsev⟩ := create_mem_new db m
        AlertType.antivirus_disabled Severity.medium avDisabledTitle
        (avDisabledMsg m) now h0
      have hne : openMatch m AlertType.antivirus_missing r = false := by
        obtain ⟨h1, h2, h3⟩ := openMatch_fields _ _ _ hropen
        simp [openMatch, h2]
      refine ⟨r, ?_, hropen, hrsev⟩
      rw [hbody]
      exact mem_resolve_of_not_match _ _ _ _ _ hrmem hne
  · intro hI hE hO
    refine ⟨?_, ?_, ?_⟩
    · rw [countOpen_checkAv_missing, if_pos hI]
    · rw [countOpen_checkAv_disabled, if_pos hI, if_pos hE]
    · rw [countOpen_checkAv_outdated, if_pos (by simp [hI, hE]), if_pos hO]
      have := hinv m AlertType.antivirus_outdated
      omega
  · intro hI hE hO
    refine ⟨?_, ?_, ?_⟩
    · rw [countOpen_checkAv_missing, if_pos hI]
    · rw [countOpen_checkAv_disabled, if_pos hI, if_pos hE]
    · rw [countOpen_checkAv_outdated, if_pos (by simp [hI, hE]), if_neg (by simp [hO])]

/-- Witness for C6 at a concrete input: an installed, enabled,
outdated-definitions payload on the empty store yields one open
`antivirus_outdated` and zero missing/disabled. -/
theorem antivirus_ordered_evaluation_witness :
    AtMostOneOpen ([] : DB) ∧
    countOpen (checkAntivirusAlert m1 sampleAvOutdated 0 [])
      m1 AlertType.antivirus_missing = 0 ∧
    countOpen (checkAntivirusAlert m1 sampleAvOutdated 0 [])
      m1 AlertType.antivirus_disabled = 0 ∧
    countOpen (checkAntivirusAlert m1 sampleAvOutdated 0 [])
      m1 AlertType.antivirus_outdated = 1 := by
  have hinv : AtMostOneOpen ([] : DB) := by
    intro m t
    simp [countOpen]
  exact ⟨hinv,
    (antivirus_ordered_evaluation m1 sampleAvOutdated 0 [] hinv).2.2.1
      (by rfl) (by rfl) (by rfl)⟩

/-- Claim C7: `resolveAlertByType` marks every open record of the given
`(machineId, alertType)` resolved with `resolvedAt = now`, leaves every
other record (including already-resolved ones) unchanged, is a no-op when
no open record of that type exists, and a compliant condition makes
`analyzeSystemData` leave zero open records of the corresponding type. -/
theorem resolve_on_compliance :
    (∀ (db : DB) (m : String) (t : AlertType) (now : Int),
      countOpen (resolveAlertByType db m t now) m t = 0) ∧
    (∀ (db : DB) (m : String) (t : AlertType) (now : Int) (r : AlertRecord),
      r ∈ db → openMatch m t r = true →
      { r with isResolved := true, resolvedAt := some now } ∈
        resolveAlertByType db m t now) ∧
    (∀ (db : DB) (m : String) (t : AlertType) (now : Int) (r : AlertRecord),
      r ∈ db → openMatch m t r = false → r ∈ resolveAlertByType db m t now) ∧
    (∀ (db : DB) (m : String) (t : AlertType) (now : Int),
      countOpen db m t = 0 → resolveAlertByType db m t now = db) ∧
    (∀ (s : SystemData) (now : Int) (db : DB) (t : AlertType),
      resolvesType s t = true →
      countOpen (analyzeSystemData s now db) s.machineId t = 0) := by
  refine ⟨?_, ?_, ?_, ?_, ?_⟩
  · exact countOpen_resolve_self
  · exact mem_resolve_modified
  · exact mem_resolve_of_not_match
  · exact resolve_noop_of_none
  · intro s now db t h
    have hc := creates_resolves_exclusive s t h
    rw [countOpen_analyze, if_neg (by simp [hc]), if_pos h]

/-- Witness for C7 at a concrete input: resolving the open high alert of
`m1` marks it resolved with `resolvedAt = 5`, and resolving on the empty
store is a no-op. -/
theorem resolve_on_compliance_witness :
    (sampleHighAlert ∈ ([sampleHighAlert] : DB) ∧
     openMatch m1 AlertType.disk_encryption sampleHighAlert = true ∧
     { sampleHighAlert with isResolved := true, resolvedAt := some 5 } ∈
       resolveAlertByType [sampleHighAlert] m1 AlertType.disk_encryption 5) ∧
    (countOpen ([] : DB) m1 AlertType.disk_encryption = 0 ∧
     resolveAlertByType [] m1 AlertType.disk_encryption 5 = []) :=
  ⟨⟨by decide, by decide,
    resolve_on_compliance.2.1 [sampleHighAlert] m1 AlertType.disk_encryption 5
      sampleHighAlert (by decide) (by decide)⟩,
   ⟨by rfl,
    resolve_on_compliance.2.2.2.1 [] m1 AlertType.disk_encryption 5 (by rfl)⟩⟩

/-- Counterexample to claim C8: the `{error: true, message}` marker the
probe returns for an unknown sleep state is a truthy object whose
`sleepTimeout` is undefined, so `!sleepSettings || sleepSettings.sleepTimeout > 10`
is `false` (JS `undefined > 10` is `false`) and the engine takes the
resolve branch: on the empty store it creates nothing, where the claim
demands a low-severity `sleep_timeout` alert. -/
theorem sleep_unknown_marker_not_alerted_cex :
    checkSleepSettingsAlert m1 (some sleepErrorMarker) 0 [] = [] ∧
    countOpen (checkSleepSettingsAlert m1 (some sleepErrorMarker) 0 [])
      m1 AlertType.sleep_timeout = 0 := ⟨rfl, rfl⟩

/-- Claim C8 as amended: the engine opens a low-severity `sleep_timeout`
alert when the payload is absent (falsy) or when its `sleepTimeout`
exceeds 10; but a present payload without a numeric `sleepTimeout` — in
particular the `{error: true, message}` probe-failure marker — takes the
compliant branch and resolves any open `sleep_timeout` alert instead. -/
theorem sleep_alert_branches :
    ∀ (m : String) (now : Int) (db : DB) (p : SleepPayload),
      AtMostOneOpen db →
      (countOpen (checkSleepSettingsAlert m none now db)
         m AlertType.sleep_timeout = 1) ∧
      (∀ t : Int, p.sleepTimeout = some t → 10 < t →
        countOpen (checkSleepSettingsAlert m (some p) now db)
          m AlertType.sleep_timeout = 1) ∧
      (p.sleepTimeout = none →
        countOpen (checkSleepSettingsAlert m (some p) now db)
          m AlertType.sleep_timeout = 0) ∧
      (countOpen db m AlertType.sleep_timeout = 0 →
        ∃ r ∈ checkSleepSettingsAlert m none now db,
          openMatch m AlertType.sleep_timeout r = true ∧
          r.severity = Severity.low) := by
  intro m now db p hinv
  refine ⟨?_, ?_, ?_, ?_⟩
  · rw [countOpen_checkSleep_self, if_pos (by rfl)]
    have := hinv m AlertType.sleep_timeout
    omega
  · intro t ht hgt
    rw [countOpen_checkSleep_self,
      if_pos (show sleepNonCompliant (some p) = true by
        simp [sleepNonCompliant, jsGtInt, ht]
        omega)]
    have := hinv m AlertType.sleep_timeout
    omega
  · intro ht
    rw [countOpen_checkSleep_self,
      if_neg (show ¬(sleepNonCompliant (some p) = true) by
        simp [sleepNonCompliant, jsGtInt, ht])]
  · intro h0
    have hbody : checkSleepSettingsAlert m none now db =
        createAlertIfNotExists db m AlertType.sleep_timeout Severity.low
          sleepTitle (sleepMsg m (sleepTimeoutStr none)) now := by
      unfold checkSleepSettingsAlert
      rw [if_pos (by rfl)]
    rw [hbody]
    exact create_mem_new db m AlertType.sleep_timeout Severity.low
      sleepTitle (sleepMsg m (sleepTimeoutStr none)) now h0

/-- Witness for C8 (amended) at concrete inputs: an absent payload opens
the alert on the empty store; the error marker leaves it closed. -/
theorem sleep_alert_branches_witness :
    AtMostOneOpen ([] : DB) ∧
    countOpen (checkSleepSettingsAlert m1 none 0 [])
      m1 AlertType.sleep_timeout = 1 ∧
    countOpen (checkSleepSettingsAlert m1 (some sleepErrorMarker) 0 [])
      m1 AlertType.sleep_timeout = 0 := by
  have hinv : AtMostOneOpen ([] : DB) := by
    intro m t
    simp [countOpen]
  have h := sleep_alert_branches m1 0 [] sleepErrorMarker hinv
  exact ⟨hinv, h.1, h.2.2.1 (by rfl)⟩

/-- Claim C9: the api route constructs `AlertService` on the mongoose
models object, which provides none of the store members the service
dereferences (`db`, `createAlert`, `getAlerts`); as wired, every
`createAlertIfNotExists` and `resolveAlertByType` call rejects,
`analyzeSystemData` swallows the rejection and mutates nothing, and
`getMachineRiskScore` rejects for every machine. -/
theorem wired_store_mismatch :
    wiredStoreOk = false ∧
    modelsMembers.contains ("db") = false ∧
    modelsMembers.contains ("createAlert") = false ∧
    modelsMembers.contains ("getAlerts") = false ∧
    (∀ (db : DB) (m : String) (t : AlertType) (sev : Severity)
       (ti ms : String) (now : Int),
      createAlertIfNotExistsW wiredStoreOk db m t sev ti ms now =
        Except.error ("TypeError: cannot read properties of undefined")) ∧
    (∀ (db : DB) (m : String) (t : AlertType) (now : Int),
      resolveAlertByTypeW wiredStoreOk db m t now =
        Except.error ("TypeError: cannot read properties of undefined")) ∧
    (∀ (s : SystemData) (now : Int) (db : DB),
      analyzeSystemDataW wiredStoreOk s now db = db) ∧
    (∀ (db : DB) (m : String),
      getMachineRiskScoreW wiredStoreOk db m =
        Except.error ("TypeError: this.db.getAlerts is not a function")) := by
  refine ⟨by rfl, by rfl, by rfl, by rfl, ?_, ?_, ?_, ?_⟩
  · intro db m t sev ti ms now
    rfl
  · intro db m t now
    rfl
  · intro s now db
    rfl
  · intro db m
    rfl

/-- Claim C10: the retention sweep deletes exactly the resolved records
whose `resolvedAt` is older than `daysToKeep` days (in milliseconds)
before now, keeps everything else — in particular every unresolved
record — and only removes rows (the result is a sublist of the store). -/
theorem cleanup_frame :
    ∀ (db : DB) (now : Int) (days : Nat),
      (cleanupOldResolvedAlerts db now days).Sublist db ∧
      (∀ r ∈ db, sweepTarget now days r = true →
        r ∉ cleanupOldResolvedAlerts db now days) ∧
      (∀ r ∈ db, sweepTarget now days r = false →
        r ∈ cleanupOldResolvedAlerts db now days) ∧
      (∀ r ∈ db, r.isResolved = false →
        r ∈ cleanupOldResolvedAlerts db now days) ∧
      (∀ r ∈ cleanupOldResolvedAlerts db now days,
        r ∈ db ∧ sweepTarget now days r = false) := by
  intro db now days
  refine ⟨List.filter_sublist db, ?_, ?_, ?_, ?_⟩
  · intro r hr hsw hmem
    rw [cleanupOldResolvedAlerts, List.mem_filter] at hmem
    rw [hsw] at hmem
    simp at hmem
  · intro r hr hsw
    rw [cleanupOldResolvedAlerts, List.mem_filter]
    exact ⟨hr, by simp [hsw]⟩
  · intro r hr hres
    rw [cleanupOldResolvedAlerts, List.mem_filter]
    refine ⟨hr, ?_⟩
    simp [sweepTarget, hres]
  · intro r hmem
    rw [cleanupOldResolvedAlerts, List.mem_filter] at hmem
    refine ⟨hmem.1, ?_⟩
    have := hmem.2
    simpa using this

/-- Witness for C10 at concrete inputs: with `now` well past the retention
window, the old resolved alert is swept and the open alert survives. -/
theorem cleanup_frame_witness :
    (sampleResolvedOld ∈ ([sampleResolvedOld, sampleHighAlert] : DB) ∧
     sweepTarget 5000000000000 30 sampleResolvedOld = true ∧
     sampleResolvedOld ∉
       cleanupOldResolvedAlerts [sampleResolvedOld, sampleHighAlert]
         5000000000000 30) ∧
    (sampleHighAlert.isResolved = false ∧
     sampleHighAlert ∈
       cleanupOldResolvedAlerts [sampleResolvedOld, sampleHighAlert]
         5000000000000 30) :=
  ⟨⟨by decide, by decide,
    (cleanup_frame [sampleResolvedOld, sampleHighAlert] 5000000000000 30).2.1
      sampleResolvedOld (by decide) (by decide)⟩,
   ⟨by rfl,
    (cleanup_frame [sampleResolvedOld, sampleHighAlert] 5000000000000 30).2.2.2.1
      sampleHighAlert (by decide) (by rfl)⟩⟩
